import Mathlib

/-!
Verification of server.go of the sync-gcs-s3 repository: a shallow
embedding of its authentication gate (`authMiddleware`), token verifier
(`verifyGoogleIDToken`), key lookup (`getKey`), sync trigger handler
(`defaulthandler`) and startup sequence (`main`), with theorems checking
the claims of the design document against the embedded code.

Modelling conventions:
* Go strings are Lean strings; `strings.Split` and `strings.TrimSpace`
  are re-implemented below over the character list (`stringsSplit`,
  `trimSpace`) so that every definition evaluates inside the kernel.
* Machine-level details that no claim touches (TLS, HTTP/2, logging) are
  dropped; logging is observability only.
* Calls into external libraries (`jwt.ParseWithClaims` of dgrijalva/jwt-go
  v3, `jwk.Set.LookupKeyID` and `Materialize` of lestrrat/go-jwx,
  `fs.NewFs` and `sync.Sync` of rclone, `jwk.FetchHTTP`) are embedded
  abstractly: the structural decoding of a compact JWT serialization, the
  signature check, the clock, the backend constructors and the sync
  outcome are parameters (`JwtModel`, `SyncEnv`, `StartupEnv`), while the
  control flow around them is translated from the library sources at the
  level the code of the repository observes.
* A Go panic (an out-of-range slice index) is an explicit outcome,
  `AuthOutcome.panicked`: the handler goroutine dies and the handler
  writes no response.
-/

namespace SyncGcsS3

/-- Go error values: only the message is observable to this program. -/
abbrev GoError := String

/-! ## Go string helpers -/

/-- Scanning loop of Go `strings.Split` for a non-empty separator: walk the
input left to right, cutting at each non-overlapping occurrence of `sep`.
`fuel` bounds the recursion; every call consumes one unit and the callers
below supply more fuel than the length of the input, so the fuel never
runs out on the inputs the program produces. -/
def splitGoAux (sep : List Char) : Nat → List Char → List Char → List (List Char)
  | 0, acc, rest => [acc.reverse ++ rest]
  | _ + 1, acc, [] => [acc.reverse]
  | fuel + 1, acc, c :: rest =>
    if sep.isPrefixOf (c :: rest) then
      acc.reverse :: splitGoAux sep fuel [] (List.drop sep.length (c :: rest))
    else
      splitGoAux sep fuel (c :: acc) rest

/-- Go `strings.Split(s, sep)` for the non-empty separator this program
uses ("Bearer"): the substrings of `s` around each non-overlapping
occurrence of `sep`. As in Go, the result is never an empty slice:
splitting the empty string gives one empty piece, and a separator-free
input comes back whole in a one-element list. -/
def stringsSplit (s sep : String) : List String :=
  (splitGoAux sep.data (s.data.length + 1) [] s.data).map String.mk

/-- Go `strings.TrimSpace`: drop leading and trailing whitespace. -/
def trimSpace (s : String) : String :=
  String.mk (((s.data.dropWhile Char.isWhitespace).reverse.dropWhile
      Char.isWhitespace).reverse)

/-! ## HTTP surface -/

/-- Status code and body of a response, all this program writes. -/
structure Response where
  status : Nat
  body : String
deriving DecidableEq, Repr

/-- Model of `http.StatusText` for the codes this program can produce. -/
def statusText (code : Nat) : String :=
  if code = 200 then "OK"
  else if code = 401 then "Unauthorized"
  else if code = 404 then "Not Found"
  else if code = 405 then "Method Not Allowed"
  else if code = 500 then "Internal Server Error"
  else ""

/-- Model of `http.Error(w, http.StatusText(code), code)`: the generic
status phrase (plus the newline `http.Error` appends) as the whole body. -/
def httpError (code : Nat) : Response :=
  ⟨code, statusText code ++ "\n"⟩

/-- An inbound HTTP request as this program reads it: method, URL path,
the header map, and the request context (opaque here, identified by a tag
so that its propagation into the sync call can be observed). -/
structure Request where
  method : String
  path : String
  headers : List (String × String)
  ctx : Nat
deriving DecidableEq, Repr

/-- Model of `r.Header.Get(k)`: the value of the header, or the empty
string when absent (as Go returns for a missing key). -/
def headerGet (r : Request) (k : String) : String :=
  (r.headers.lookup k).getD ""

/-! ## Data model: identity documents, keys, tokens -/

/-- Registered claims of `jwt.StandardClaims` of dgrijalva/jwt-go, with Go
zero values (empty string or 0) standing for absent claims. -/
structure StandardClaims where
  audience : String
  expiresAt : Int
  id : String
  issuedAt : Int
  issuer : String
  notBefore : Int
  subject : String
deriving DecidableEq, Repr

/-- Zero value of `jwt.StandardClaims`. -/
def StandardClaims.zero : StandardClaims := ⟨"", 0, "", 0, "", 0, ""⟩

/-- Claim set `gcpIdentityDoc` of server.go: email, email-verified flag,
authorized party, and the embedded standard claims. -/
structure gcpIdentityDoc where
  email : String
  emailVerified : Bool
  authorizedParty : String
  standardClaims : StandardClaims
deriving DecidableEq, Repr

/-- Zero value of `gcpIdentityDoc`, returned on every verification
failure. -/
def gcpIdentityDoc.zero : gcpIdentityDoc := ⟨"", false, "", StandardClaims.zero⟩

/-- Value in the JSON object of the token header: the program only ever
asks whether the value under "kid" is a string, so every other shape is
one case. -/
inductive HeaderValue where
  | str (s : String)
  | other
deriving DecidableEq, Repr

/-- Member of the JWK Set: its key id and its key material (opaque to this
program, identified by a tag). `Materialize` of go-jwx is modelled as
returning the material: on the RSA public keys of a fetched JWKS document
it does not fail. -/
structure JWK where
  keyID : String
  material : Nat
deriving DecidableEq, Repr

/-- Model of `jwk.Set.LookupKeyID` of go-jwx: every key whose key id
matches. -/
def LookupKeyID (jwtSet : List JWK) (kid : String) : List JWK :=
  jwtSet.filter (fun k => k.keyID == kid)

/-- Model of `jwk.Key.Materialize`: the raw key material (see `JWK`). -/
def JWK.Materialize (k : JWK) : Except GoError Nat :=
  Except.ok k.material

/-- A parsed JWT as the program reads it: decoded header and claims, the
signature (opaque, a tag), and the Valid flag the parser sets. -/
structure JwtToken where
  header : List (String × HeaderValue)
  claims : gcpIdentityDoc
  signature : Nat
  valid : Bool
deriving DecidableEq, Repr

/-- Outcome of structurally decoding a compact JWT serialization: either
not a well-formed token (the structural parse of jwt-go fails) or a
decoded header, claim set and signature. -/
inductive RawToken where
  | malformed (e : GoError)
  | wellFormed (header : List (String × HeaderValue)) (claims : gcpIdentityDoc)
      (signature : Nat)
deriving DecidableEq, Repr

/-- Environment of the jwt-go parser that the repository does not choose:
how token strings decode, how a signature checks against key material
(`SigningMethod.Verify`), and the clock (`jwt.TimeFunc().Unix()`). -/
structure JwtModel where
  decode : String → RawToken
  verify : Nat → Nat → Bool
  now : Int

/-! ## getKey (server.go lines 62-71) -/

/-- Embedding of `getKey` of server.go, the keyfunc handed to the JWT
parser. It requires the "kid" of the token header to be a string, looks it
up in the package-level JWK Set, and materializes the key only when
exactly one key matches (the source checks the length of the lookup result
against 1); otherwise an error. -/
def getKey (jwtSet : List JWK) (token : JwtToken) : Except GoError Nat :=
  match token.header.lookup "kid" with
  | some (HeaderValue.str keyID) =>
    match LookupKeyID jwtSet keyID with
    | [key] => key.Materialize
    | _ => Except.error "unable to find key"
  | _ => Except.error "expecting JWT header to have string kid"

/-! ## jwt.ParseWithClaims, specialised to its use in server.go -/

/-- Model of `StandardClaims.VerifyExpiresAt(cmp, false)` of jwt-go: a
zero exp claim passes (not required); otherwise cmp must not exceed it. -/
def StandardClaims.verifyExpiresAt (c : StandardClaims) (cmp : Int) : Bool :=
  if c.expiresAt = 0 then true else decide (cmp ≤ c.expiresAt)

/-- Model of `StandardClaims.VerifyIssuedAt(cmp, false)` of jwt-go. -/
def StandardClaims.verifyIssuedAt (c : StandardClaims) (cmp : Int) : Bool :=
  if c.issuedAt = 0 then true else decide (c.issuedAt ≤ cmp)

/-- Model of `StandardClaims.VerifyNotBefore(cmp, false)` of jwt-go. -/
def StandardClaims.verifyNotBefore (c : StandardClaims) (cmp : Int) : Bool :=
  if c.notBefore = 0 then true else decide (c.notBefore ≤ cmp)

/-- Model of `StandardClaims.Valid()` of jwt-go at time `now`: expiry,
issued-at and not-before must all pass (each optional when zero).
`gcpIdentityDoc` embeds `StandardClaims`, so this is the claim validation
the parser runs. -/
def StandardClaims.timeValid (c : StandardClaims) (now : Int) : Bool :=
  c.verifyExpiresAt now && c.verifyIssuedAt now && c.verifyNotBefore now

/-- Embedding of `jwt.ParseWithClaims(rawToken, &gcpIdentityDoc{}, getKey)`
as observed by server.go: decode the serialization (error on a malformed
token), call the keyfunc `getKey` (error when it errors), then validate
the claims and verify the signature — jwt-go accumulates those two
failures into a non-nil validation error and leaves the Valid flag false,
so for the caller (which only distinguishes a nil error) they are one
error case. On full success the token carries `valid = true`. -/
def ParseWithClaims (M : JwtModel) (jwtSet : List JWK) (rawToken : String) :
    Except GoError JwtToken :=
  match M.decode rawToken with
  | RawToken.malformed e => Except.error e
  | RawToken.wellFormed header claims signature =>
    match getKey jwtSet ⟨header, claims, signature, false⟩ with
    | Except.error e => Except.error e
    | Except.ok key =>
      if claims.standardClaims.timeValid M.now && M.verify key signature then
        Except.ok ⟨header, claims, signature, true⟩
      else
        Except.error "token is invalid"

/-! ## verifyGoogleIDToken (server.go lines 73-84) -/

/-- Embedding of `verifyGoogleIDToken` of server.go. The `aud` parameter
is accepted but never used, exactly as in the source. Returns the Go pair
of identity document and error, with `none` standing for a nil error. -/
def verifyGoogleIDToken (M : JwtModel) (jwtSet : List JWK) (aud : String)
    (rawToken : String) : gcpIdentityDoc × Option GoError :=
  match ParseWithClaims M jwtSet rawToken with
  | Except.error e => (gcpIdentityDoc.zero, some e)
  | Except.ok token =>
    if token.valid then (token.claims, none)
    else (gcpIdentityDoc.zero, some "Error parsing JWT Claims")

/-! ## authMiddleware (server.go lines 86-114) -/

/-- What a request produces after the middleware runs: an `http.Error`
rejection (the downstream handler is not invoked), a panic of the handler
goroutine (no response is written by the handler), or the result of the
downstream handler together with the identity document the middleware put
into the request context. -/
inductive AuthOutcome (α : Type) where
  | rejected (resp : Response)
  | panicked
  | forwarded (idDoc : gcpIdentityDoc) (result : α)
deriving DecidableEq, Repr

/-- Embedding of `authMiddleware` of server.go around a downstream handler
`h` (which receives the request and the identity document of the context).
An empty Authorization header is rejected with 401. Otherwise the header
is split on "Bearer"; since `strings.Split` never returns an empty slice
the length guard of the source always holds, and the source then indexes
element 1 of the split — a panic when the header does not contain "Bearer"
— which is the modelled index. A token that fails verification is rejected
with 401; a verified one is forwarded with the identity document in the
context. -/
def authMiddleware {α : Type} (M : JwtModel) (jwtSet : List JWK)
    (myAudience : String) (h : Request → gcpIdentityDoc → α) (r : Request) :
    AuthOutcome α :=
  let authHeader := headerGet r "Authorization"
  if authHeader = "" then
    AuthOutcome.rejected (httpError 401)
  else
    let splitToken := stringsSplit authHeader "Bearer"
    if splitToken.length > 0 then
      match splitToken[1]? with
      | none => AuthOutcome.panicked
      | some s =>
        let tok := trimSpace s
        match verifyGoogleIDToken M jwtSet myAudience tok with
        | (_, some _) => AuthOutcome.rejected (httpError 401)
        | (idDoc, none) => AuthOutcome.forwarded idDoc (h r idDoc)
    else
      AuthOutcome.rejected (httpError 401)

/-! ## defaulthandler (server.go lines 116-136) -/

/-- One call to `sync.Sync(ctx, fdst, fsrc, false)` of rclone: the context
it got, the destination and source backend handles, and the boolean flag
the program always passes as false. -/
structure SyncCall where
  ctx : Nat
  fdst : Nat
  fsrc : Nat
  flag : Bool
deriving DecidableEq, Repr

/-- The rclone calls the handler makes, abstract: `NewFs` maps a remote
string to a backend handle or an error, and `Sync` gives the outcome of
each sync call. -/
structure SyncEnv where
  NewFs : String → Except GoError Nat
  Sync : SyncCall → Except GoError Unit

/-- Embedding of `defaulthandler` of server.go, instrumented with the list
of sync calls it performs: construct the source handle (500 on error, no
sync), construct the destination handle (500 on error, no sync), run one
sync with the context of the request and flag false (500 on error), else
answer 200 with body "ok". -/
def defaulthandler (env : SyncEnv) (gs s3 : String) (r : Request) :
    Response × List SyncCall :=
  match env.NewFs ("gs:" ++ gs) with
  | Except.error _ => (httpError 500, [])
  | Except.ok fsrc =>
    match env.NewFs ("s3:" ++ s3) with
    | Except.error _ => (httpError 500, [])
    | Except.ok fdest =>
      let call : SyncCall := ⟨r.ctx, fdest, fsrc, false⟩
      match env.Sync call with
      | Except.error _ => (httpError 500, [call])
      | Except.ok _ => (⟨200, "ok"⟩, [call])

/-! ## Router and composed application (server.go lines 163-170) -/

/-- The gorilla/mux router as configured: one route, method GET and path
"/", to `defaulthandler`; a path miss gets the default 404 page of mux, a
method miss its bare 405. -/
def routerHandle (env : SyncEnv) (gs s3 : String) (r : Request) :
    Response × List SyncCall :=
  if r.path = "/" then
    if r.method = "GET" then defaulthandler env gs s3 r
    else (⟨405, ""⟩, [])
  else (⟨404, "404 page not found\n"⟩, [])

/-- Handler of the server: `authMiddleware(router)`, the composition
installed by `main`. -/
def app (M : JwtModel) (jwtSet : List JWK) (myAudience : String)
    (env : SyncEnv) (gs s3 : String) (r : Request) :
    AuthOutcome (Response × List SyncCall) :=
  authMiddleware M jwtSet myAudience (fun req _ => routerHandle env gs s3 req) r

/-! ## main (server.go lines 138-175) -/

/-- Startup inputs of `main`: the outcome of `jwk.FetchHTTP(jwksURL)` and
the environment variables read at package init (keeping the spelling
`awsSecretAcessKey` of the source). -/
structure StartupEnv where
  fetchJWKS : Except GoError (List JWK)
  audience : String
  gs : String
  s3 : String
  awsAccessKey : String
  awsSecretAcessKey : String
  awsRegion : String
deriving Repr

/-- The `fs.ConfigFileSet` triples `main` writes, in order: section, key,
value. The AWS credential values are copied in as read, without any
check. -/
def configEntries (e : StartupEnv) : List (String × String × String) :=
  [("gs", "type", "google cloud storage"),
   ("gs", "bucket_policy_only", "true"),
   ("s3", "type", "s3"),
   ("s3", "provider", "AWS"),
   ("s3", "env_auth", "false"),
   ("s3", "access_key_id", e.awsAccessKey),
   ("s3", "secret_access_key", e.awsSecretAcessKey),
   ("s3", "region", e.awsRegion),
   ("s3", "acl", "private"),
   ("s3", "bucket_acl", "private")]

/-- What the process holds when it reaches `ListenAndServe`: the loaded
JWK Set and the written backend configuration. -/
structure ServeState where
  jwtSet : List JWK
  config : List (String × String × String)
deriving DecidableEq, Repr

/-- How far `main` gets: `log.Fatal` on a failed JWKS fetch, `log.Fatalln`
on a missing audience, gs or s3 value, or serving. -/
inductive MainOutcome where
  | fatalJWKS (e : GoError)
  | fatalConfig
  | serving (st : ServeState)
deriving DecidableEq, Repr

/-- Embedding of `main` of server.go up to `ListenAndServe`: fetch the JWK
Set (fatal on error), check that audience, gs and s3 are non-empty (fatal
otherwise), write the backend configuration, and serve. -/
def mainStartup (e : StartupEnv) : MainOutcome :=
  match e.fetchJWKS with
  | Except.error err => MainOutcome.fatalJWKS err
  | Except.ok jwtSet =>
    if e.audience = "" || e.gs = "" || e.s3 = "" then
      MainOutcome.fatalConfig
    else
      MainOutcome.serving ⟨jwtSet, configEntries e⟩

/-- Whether `main` reached `ListenAndServe`. -/
def MainOutcome.isServing : MainOutcome → Bool
  | MainOutcome.serving _ => true
  | _ => false

/-! ## Concrete instances used in counterexamples and witnesses -/

/-- A JWT environment in which no token string decodes. -/
def bugModel : JwtModel := ⟨fun _ => RawToken.malformed "bad", fun _ _ => false, 0⟩

/-- A request whose Authorization header is present but carries a basic
credential, not a bearer one. -/
def bugRequest : Request := ⟨"GET", "/", [("Authorization", "Basic xyz")], 0⟩

/-- A sync environment in which no backend handle constructs. -/
def failEnv : SyncEnv := ⟨fun _ => Except.error "NewFs failed", fun _ => Except.ok ()⟩

/-- A request with no headers at all. -/
def noHeaderRequest : Request := ⟨"GET", "/", [], 3⟩

/-- A request carrying a bearer token, used as the concrete invocation in
the C9 counterexample. -/
def okRequest : Request := ⟨"GET", "/", [("Authorization", "Bearer tok")], 9⟩

/-- A request of another method and path whose Authorization header lacks
the "Bearer" marker: used to refute claim C10. -/
def strayRequest : Request := ⟨"POST", "/other", [("Authorization", "Basic xyz")], 0⟩

/-- A startup environment with the AWS credential values replaced: all the
other inputs of `main` kept. -/
def setCreds (e : StartupEnv) (ak sk rg : String) : StartupEnv :=
  ⟨e.fetchJWKS, e.audience, e.gs, e.s3, ak, sk, rg⟩

/-- A startup environment whose three AWS credential variables are empty
but whose audience and bucket identifiers are set. -/
def credlessEnv : StartupEnv :=
  ⟨Except.ok [⟨"K1", 5⟩], "aud", "src", "dst", "", "", ""⟩

/-! ## Helper lemmas -/

/-- The split scanner never returns an empty list. -/
theorem splitGoAux_ne_nil (sep : List Char) :
    ∀ (fuel : Nat) (acc l : List Char), splitGoAux sep fuel acc l ≠ [] := by
  intro fuel
  induction fuel with
  | zero => intro acc l; simp [splitGoAux]
  | succ n ih =>
    intro acc l
    cases l with
    | nil => simp [splitGoAux]
    | cons c rest =>
      simp only [splitGoAux]
      split
      · simp
      · exact ih _ _

/-- Go `strings.Split` never returns an empty slice. -/
theorem stringsSplit_length_pos (s sep : String) : 0 < (stringsSplit s sep).length := by
  unfold stringsSplit
  rw [List.length_map]
  cases hq : splitGoAux sep.data (s.data.length + 1) [] s.data with
  | nil => exact absurd hq (splitGoAux_ne_nil _ _ _ _)
  | cons a t => simp

/-- Case normal form of the middleware: the length guard in the source
always holds, so the behavior of the middleware is decided by whether the
header is empty, by the out-of-bounds index, and by the verification
result. -/
theorem authMiddleware_eq {α : Type} (M : JwtModel) (jwtSet : List JWK)
    (myAudience : String) (h : Request → gcpIdentityDoc → α) (r : Request) :
    authMiddleware M jwtSet myAudience h r =
      if headerGet r "Authorization" = "" then AuthOutcome.rejected (httpError 401)
      else
        match (stringsSplit (headerGet r "Authorization") "Bearer")[1]? with
        | none => AuthOutcome.panicked
        | some s =>
          match verifyGoogleIDToken M jwtSet myAudience (trimSpace s) with
          | (_, some _) => AuthOutcome.rejected (httpError 401)
          | (idDoc, none) => AuthOutcome.forwarded idDoc (h r idDoc) := by
  have hp := stringsSplit_length_pos (headerGet r "Authorization") "Bearer"
  unfold authMiddleware
  by_cases hh : headerGet r "Authorization" = ""
  · simp [hh]
  · simp [hh, hp]

/-- `main` reaches `ListenAndServe` exactly when the JWKS fetch succeeded
and audience, gs and s3 are non-empty (shared by the startup claims). -/
theorem mainStartup_isServing (e : StartupEnv) :
    (mainStartup e).isServing = true ↔
      ((∃ ks, e.fetchJWKS = Except.ok ks) ∧
        e.audience ≠ "" ∧ e.gs ≠ "" ∧ e.s3 ≠ "") := by
  unfold mainStartup
  cases hf : e.fetchJWKS with
  | error err => simp [MainOutcome.isServing]
  | ok ks =>
    by_cases ha : e.audience = ""
    · simp [ha, MainOutcome.isServing]
    · by_cases hg : e.gs = ""
      · simp [ha, hg, MainOutcome.isServing]
      · by_cases hs : e.s3 = ""
        · simp [ha, hg, hs, MainOutcome.isServing]
        · simp [ha, hg, hs, MainOutcome.isServing]

/-! ## The claims -/

/-- Claim C1 (refuted, code bug): on a request whose Authorization header
is present but does not contain "Bearer", `strings.Split` returns a
one-element slice, so the index 1 taken by the source is out of bounds and
the middleware panics instead of answering 401: the concrete request with
header "Basic xyz" exhibits it. -/
theorem authMiddleware_non_bearer_header_panics :
    authMiddleware bugModel [] "aud" (fun _ _ => (0 : Nat)) bugRequest
        = AuthOutcome.panicked ∧
    (stringsSplit (headerGet bugRequest "Authorization") "Bearer").length = 1 := by
  decide

/-- Claim C2: the result of `verifyGoogleIDToken` does not depend on the
expected-audience argument: the parameter is never compared against the
audience claim of the token. -/
theorem verifyGoogleIDToken_ignores_audience (M : JwtModel) (jwtSet : List JWK)
    (aud1 aud2 rawToken : String) :
    verifyGoogleIDToken M jwtSet aud1 rawToken
      = verifyGoogleIDToken M jwtSet aud2 rawToken := rfl

/-- Claim C3: a request without an Authorization header is answered
401 Unauthorized by the Auth Gate and never reaches the router, so
`defaulthandler` is not invoked and no sync call happens. -/
theorem app_missing_auth_header_rejected (M : JwtModel) (jwtSet : List JWK)
    (myAudience : String) (env : SyncEnv) (gs s3 : String) (r : Request)
    (hh : headerGet r "Authorization" = "") :
    app M jwtSet myAudience env gs s3 r = AuthOutcome.rejected (httpError 401) := by
  unfold app authMiddleware
  simp [hh]

/-- Claim C3, witness: the generic theorem applied to a concrete request
with no headers at all. -/
theorem app_missing_auth_header_rejected_witness :
    app bugModel [] "aud" failEnv "src" "dst" noHeaderRequest
      = AuthOutcome.rejected (httpError 401) :=
  app_missing_auth_header_rejected bugModel [] "aud" failEnv "src" "dst"
    noHeaderRequest (by decide)

/-- Claim C4: every parse, key-resolution, time-validity or signature
failure makes `verifyGoogleIDToken` return the zero identity document with
a non-nil error; a token that passes every check comes back as its decoded
claims, email included; and a request whose extracted token fails
verification is answered 401 by the Auth Gate without reaching the
router. -/
theorem verifyGoogleIDToken_spec (M : JwtModel) (jwtSet : List JWK)
    (aud tok : String) (env : SyncEnv) (gs s3 : String) (r : Request) :
    ((verifyGoogleIDToken M jwtSet aud tok).2.isSome = true →
       (verifyGoogleIDToken M jwtSet aud tok).1 = gcpIdentityDoc.zero) ∧
    (∀ e, M.decode tok = RawToken.malformed e →
       verifyGoogleIDToken M jwtSet aud tok = (gcpIdentityDoc.zero, some e)) ∧
    (∀ header claims signature,
       M.decode tok = RawToken.wellFormed header claims signature →
       (claims.standardClaims.verifyExpiresAt M.now = false ∨
         claims.standardClaims.verifyNotBefore M.now = false) →
       (verifyGoogleIDToken M jwtSet aud tok).1 = gcpIdentityDoc.zero ∧
       (verifyGoogleIDToken M jwtSet aud tok).2.isSome = true) ∧
    (∀ header claims signature key,
       M.decode tok = RawToken.wellFormed header claims signature →
       getKey jwtSet ⟨header, claims, signature, false⟩ = Except.ok key →
       M.verify key signature = false →
       verifyGoogleIDToken M jwtSet aud tok
         = (gcpIdentityDoc.zero, some "token is invalid")) ∧
    (∀ header claims signature,
       M.decode tok = RawToken.wellFormed header claims signature →
       (verifyGoogleIDToken M jwtSet aud tok).2 = none →
       (verifyGoogleIDToken M jwtSet aud tok).1 = claims ∧
       (verifyGoogleIDToken M jwtSet aud tok).1.email = claims.email) ∧
    (∀ t, (stringsSplit (headerGet r "Authorization") "Bearer")[1]? = some t →
       (verifyGoogleIDToken M jwtSet aud (trimSpace t)).2.isSome = true →
       app M jwtSet aud env gs s3 r = AuthOutcome.rejected (httpError 401)) := by
  refine ⟨?_, ?_, ?_, ?_, ?_, ?_⟩
  · intro hsome
    unfold verifyGoogleIDToken at hsome ⊢
    cases hp : ParseWithClaims M jwtSet tok with
    | error e => simp [hp]
    | ok token =>
      simp only [hp] at hsome ⊢
      by_cases hv : token.valid = true
      · simp [hv] at hsome
      · simp [hv]
  · intro e hd
    unfold verifyGoogleIDToken ParseWithClaims
    simp [hd]
  · intro header claims signature hd htime
    have ht : claims.standardClaims.timeValid M.now = false := by
      unfold StandardClaims.timeValid
      rcases htime with h1 | h1 <;> simp [h1]
    unfold verifyGoogleIDToken ParseWithClaims
    simp only [hd]
    cases hk : getKey jwtSet ⟨header, claims, signature, false⟩ with
    | error e => simp [hk]
    | ok key => simp [hk, ht]
  · intro header claims signature key hd hk hverify
    unfold verifyGoogleIDToken ParseWithClaims
    simp only [hd]
    simp [hk, hverify]
  · intro header claims signature hd hnone
    unfold verifyGoogleIDToken ParseWithClaims at hnone ⊢
    simp only [hd] at hnone ⊢
    cases hk : getKey jwtSet ⟨header, claims, signature, false⟩ with
    | error e => simp [hk] at hnone
    | ok key =>
      by_cases hvv : (claims.standardClaims.timeValid M.now
          && M.verify key signature) = true
      · simp [hk, hvv]
      · simp [hk, hvv] at hnone
  · intro t hsplit hfail
    unfold app
    rw [authMiddleware_eq]
    by_cases hh : headerGet r "Authorization" = ""
    · simp [hh]
    · rcases hv : verifyGoogleIDToken M jwtSet aud (trimSpace t) with ⟨doc, err⟩
      cases err with
      | some e => simp [hh, hsplit, hv]
      | none => rw [hv] at hfail; simp at hfail

/-- Claim C5: `getKey` yields key material exactly when the token header
carries a string "kid" and exactly one key of the Key Set matches it; a
missing or non-string kid, no match, or an ambiguous match each produce an
error, and a well-formed token whose kid matches no key is rejected by the
verifier with an authentication error rather than a crash. -/
theorem getKey_lookup_spec (jwtSet : List JWK) (token : JwtToken)
    (M : JwtModel) (aud s : String) :
    ((∃ mat, getKey jwtSet token = Except.ok mat) ↔
       (∃ kid, token.header.lookup "kid" = some (HeaderValue.str kid) ∧
          (LookupKeyID jwtSet kid).length = 1)) ∧
    ((¬ ∃ kid, token.header.lookup "kid" = some (HeaderValue.str kid)) →
       getKey jwtSet token
         = Except.error "expecting JWT header to have string kid") ∧
    (∀ kid, token.header.lookup "kid" = some (HeaderValue.str kid) →
       (LookupKeyID jwtSet kid).length ≠ 1 →
       getKey jwtSet token = Except.error "unable to find key") ∧
    (∀ header claims signature kid,
       M.decode s = RawToken.wellFormed header claims signature →
       header.lookup "kid" = some (HeaderValue.str kid) →
       LookupKeyID jwtSet kid = [] →
       verifyGoogleIDToken M jwtSet aud s
         = (gcpIdentityDoc.zero, some "unable to find key")) := by
  refine ⟨?_, ?_, ?_, ?_⟩
  · constructor
    · rintro ⟨mat, hmat⟩
      unfold getKey at hmat
      cases hl : token.header.lookup "kid" with
      | none => simp [hl] at hmat
      | some v =>
        cases v with
        | other => simp [hl] at hmat
        | str kid =>
          simp only [hl] at hmat
          refine ⟨kid, rfl, ?_⟩
          cases hk : LookupKeyID jwtSet kid with
          | nil => simp [hk] at hmat
          | cons k rest =>
            cases rest with
            | nil => simp [hk]
            | cons k2 rest2 => simp [hk] at hmat
    · rintro ⟨kid, hl, hlen⟩
      unfold getKey
      simp only [hl]
      cases hk : LookupKeyID jwtSet kid with
      | nil => simp [hk] at hlen
      | cons k rest =>
        cases rest with
        | nil => exact ⟨k.material, by simp [hk, JWK.Materialize]⟩
        | cons k2 rest2 => simp [hk] at hlen
  · intro hno
    unfold getKey
    cases hl : token.header.lookup "kid" with
    | none => simp [hl]
    | some v =>
      cases v with
      | other => simp [hl]
      | str kid => exact absurd ⟨kid, hl⟩ hno
  · intro kid hl hlen
    unfold getKey
    simp only [hl]
    cases hk : LookupKeyID jwtSet kid with
    | nil => simp [hk]
    | cons k rest =>
      cases rest with
      | nil => simp [hk] at hlen
      | cons k2 rest2 => simp [hk]
  · intro header claims signature kid hd hl hk
    have hg : getKey jwtSet ⟨header, claims, signature, false⟩
        = Except.error "unable to find key" := by
      unfold getKey
      simp [hl, hk]
    unfold verifyGoogleIDToken ParseWithClaims
    simp [hd, hg]

/-- Claim C6: the process reaches `ListenAndServe` exactly when the JWKS
fetch succeeded and the audience, source bucket and destination bucket
values are all non-empty; the Key Set of a serving state is the fetched
one. -/
theorem mainStartup_serving_iff (e : StartupEnv) :
    ((mainStartup e).isServing = true ↔
       ((∃ ks, e.fetchJWKS = Except.ok ks) ∧
         e.audience ≠ "" ∧ e.gs ≠ "" ∧ e.s3 ≠ "")) ∧
    (∀ st, mainStartup e = MainOutcome.serving st →
       e.fetchJWKS = Except.ok st.jwtSet) := by
  refine ⟨mainStartup_isServing e, ?_⟩
  intro st hst
  unfold mainStartup at hst
  cases hf : e.fetchJWKS with
  | error err => simp [hf] at hst
  | ok ks =>
    simp only [hf] at hst
    by_cases ha : e.audience = ""
    · simp [ha] at hst
    · by_cases hg : e.gs = ""
      · simp [ha, hg] at hst
      · by_cases hs : e.s3 = ""
        · simp [ha, hg, hs] at hst
        · simp [ha, hg, hs] at hst
          rw [← hst]

/-- Claim C7 (refuted): a startup state with every destination credential
environment variable empty still begins serving — `main` checks only the
audience and the two bucket identifiers. -/
theorem mainStartup_empty_credentials_serve :
    credlessEnv.awsAccessKey = "" ∧ credlessEnv.awsSecretAcessKey = "" ∧
    credlessEnv.awsRegion = "" ∧ (mainStartup credlessEnv).isServing = true := by
  decide

/-- Claim C7 as amended: before serving, the audience and both bucket
identifiers are non-empty and the destination credentials are copied into
the backend configuration exactly as read; whether the process serves is
independent of the credential values, which are never validated. -/
theorem mainStartup_ignores_credentials (e : StartupEnv) (ak sk rg : String) :
    ((mainStartup (setCreds e ak sk rg)).isServing = (mainStartup e).isServing) ∧
    (∀ st, mainStartup e = MainOutcome.serving st →
       e.audience ≠ "" ∧ e.gs ≠ "" ∧ e.s3 ≠ "" ∧ st.config = configEntries e) := by
  constructor
  · have h1 := mainStartup_isServing (setCreds e ak sk rg)
    have h2 := mainStartup_isServing e
    have hp1 : (setCreds e ak sk rg).fetchJWKS = e.fetchJWKS := rfl
    have hp2 : (setCreds e ak sk rg).audience = e.audience := rfl
    have hp3 : (setCreds e ak sk rg).gs = e.gs := rfl
    have hp4 : (setCreds e ak sk rg).s3 = e.s3 := rfl
    rw [hp1, hp2, hp3, hp4, ← h2] at h1
    cases hb1 : (mainStartup (setCreds e ak sk rg)).isServing <;>
      cases hb2 : (mainStartup e).isServing <;> simp_all
  · intro st hst
    unfold mainStartup at hst
    cases hf : e.fetchJWKS with
    | error err => simp [hf] at hst
    | ok ks =>
      simp only [hf] at hst
      by_cases ha : e.audience = ""
      · simp [ha] at hst
      · by_cases hg : e.gs = ""
        · simp [ha, hg] at hst
        · by_cases hs : e.s3 = ""
          · simp [ha, hg, hs] at hst
          · refine ⟨ha, hg, hs, ?_⟩
            simp [ha, hg, hs] at hst
            rw [← hst]

/-- Claim C8: when the source backend handle cannot be constructed the
handler answers 500 and performs no sync; likewise for the destination
handle; when the sync itself fails it answers 500 after the one sync call;
on success it answers 200 with body "ok"; and it never performs more than
one sync call, so no retry happens in any case. -/
theorem defaulthandler_responses (env : SyncEnv) (gs s3 : String) (r : Request) :
    (∀ e, env.NewFs ("gs:" ++ gs) = Except.error e →
       defaulthandler env gs s3 r = (httpError 500, [])) ∧
    (∀ fsrc e, env.NewFs ("gs:" ++ gs) = Except.ok fsrc →
       env.NewFs ("s3:" ++ s3) = Except.error e →
       defaulthandler env gs s3 r = (httpError 500, [])) ∧
    (∀ fsrc fdest, env.NewFs ("gs:" ++ gs) = Except.ok fsrc →
       env.NewFs ("s3:" ++ s3) = Except.ok fdest →
       (∀ e, env.Sync ⟨r.ctx, fdest, fsrc, false⟩ = Except.error e →
          defaulthandler env gs s3 r
            = (httpError 500, [⟨r.ctx, fdest, fsrc, false⟩])) ∧
       (env.Sync ⟨r.ctx, fdest, fsrc, false⟩ = Except.ok () →
          defaulthandler env gs s3 r
            = (⟨200, "ok"⟩, [⟨r.ctx, fdest, fsrc, false⟩]))) ∧
    ((defaulthandler env gs s3 r).2.length ≤ 1) := by
  refine ⟨?_, ?_, ?_, ?_⟩
  · intro e h1
    unfold defaulthandler
    simp [h1]
  · intro fsrc e h1 h2
    unfold defaulthandler
    simp [h1, h2]
  · intro fsrc fdest h1 h2
    constructor
    · intro e h3
      unfold defaulthandler
      simp [h1, h2, h3]
    · intro h3
      unfold defaulthandler
      simp [h1, h2, h3]
  · unfold defaulthandler
    cases h1 : env.NewFs ("gs:" ++ gs) with
    | error e => simp
    | ok fsrc =>
      cases h2 : env.NewFs ("s3:" ++ s3) with
      | error e => simp
      | ok fdest =>
        cases h3 : env.Sync ⟨r.ctx, fdest, fsrc, false⟩ with
        | error e => simp [h3]
        | ok u => simp [h3]

/-- Claim C9 (refuted): an invocation of the handler on which the source
backend handle fails to construct requests no synchronization at all, not
exactly one. -/
theorem defaulthandler_invocation_without_sync :
    (defaulthandler failEnv "src" "dst" okRequest).2 = [] ∧
    (defaulthandler failEnv "src" "dst" okRequest).1 = httpError 500 := by
  decide

/-- Claim C9 as amended: every sync call the handler makes carries the
context of the request, the gs source handle, the s3 destination handle
and the boolean flag fixed to false; at most one call is made per
invocation, and exactly one exactly when both backend handles construct. -/
theorem defaulthandler_sync_call_shape (env : SyncEnv) (gs s3 : String)
    (r : Request) :
    (∀ c, c ∈ (defaulthandler env gs s3 r).2 →
       c.ctx = r.ctx ∧ c.flag = false ∧
       env.NewFs ("gs:" ++ gs) = Except.ok c.fsrc ∧
       env.NewFs ("s3:" ++ s3) = Except.ok c.fdst) ∧
    ((defaulthandler env gs s3 r).2.length ≤ 1) ∧
    (∀ fsrc fdest, env.NewFs ("gs:" ++ gs) = Except.ok fsrc →
       env.NewFs ("s3:" ++ s3) = Except.ok fdest →
       (defaulthandler env gs s3 r).2 = [⟨r.ctx, fdest, fsrc, false⟩]) := by
  refine ⟨?_, ?_, ?_⟩
  · intro c hc
    unfold defaulthandler at hc
    cases h1 : env.NewFs ("gs:" ++ gs) with
    | error e => simp [h1] at hc
    | ok fsrc =>
      cases h2 : env.NewFs ("s3:" ++ s3) with
      | error e => simp [h1, h2] at hc
      | ok fdest =>
        cases h3 : env.Sync ⟨r.ctx, fdest, fsrc, false⟩ with
        | error e =>
          simp [h1, h2, h3] at hc
          subst hc
          simp [h1, h2]
        | ok u =>
          simp [h1, h2, h3] at hc
          subst hc
          simp [h1, h2]
  · unfold defaulthandler
    cases h1 : env.NewFs ("gs:" ++ gs) with
    | error e => simp
    | ok fsrc =>
      cases h2 : env.NewFs ("s3:" ++ s3) with
      | error e => simp
      | ok fdest =>
        cases h3 : env.Sync ⟨r.ctx, fdest, fsrc, false⟩ with
        | error e => simp [h3]
        | ok u => simp [h3]
  · intro fsrc fdest h1 h2
    unfold defaulthandler
    cases h3 : env.Sync ⟨r.ctx, fdest, fsrc, false⟩ with
    | error e => simp [h1, h2, h3]
    | ok u => simp [h1, h2, h3]

/-- Claim C10 (refuted): a request without a valid token does not always
receive 401 — a non-empty Authorization header without the "Bearer" marker
makes the composed application panic on the out-of-bounds index instead,
for any method and path. -/
theorem app_non_bearer_request_no_response :
    app bugModel [] "aud" failEnv "src" "dst" strayRequest = AuthOutcome.panicked ∧
    ¬ app bugModel [] "aud" failEnv "src" "dst" strayRequest
        = AuthOutcome.rejected (httpError 401) := by
  decide

/-- Claim C10 as amended: the Auth Gate wraps the whole router, for every
method and path; every rejection the application writes is 401 (never 404
or 405), and a request is forwarded to route matching only when its
extracted bearer token verified, the forwarded result being that of the
router. -/
theorem app_auth_gate_wraps_router (M : JwtModel) (jwtSet : List JWK)
    (myAudience : String) (env : SyncEnv) (gs s3 : String) (r : Request) :
    (∀ resp, app M jwtSet myAudience env gs s3 r = AuthOutcome.rejected resp →
       resp = httpError 401) ∧
    (∀ idDoc res, app M jwtSet myAudience env gs s3 r
         = AuthOutcome.forwarded idDoc res →
       res = routerHandle env gs s3 r ∧
       ∃ t, (stringsSplit (headerGet r "Authorization") "Bearer")[1]? = some t ∧
         verifyGoogleIDToken M jwtSet myAudience (trimSpace t) = (idDoc, none)) := by
  constructor
  · intro resp hr
    unfold app at hr
    rw [authMiddleware_eq] at hr
    by_cases hh : headerGet r "Authorization" = ""
    · simp [hh] at hr
      exact hr.symm
    · simp only [if_neg hh] at hr
      cases hsp : (stringsSplit (headerGet r "Authorization") "Bearer")[1]? with
      | none => simp [hsp] at hr
      | some t =>
        simp only [hsp] at hr
        rcases hv : verifyGoogleIDToken M jwtSet myAudience (trimSpace t) with ⟨doc, err⟩
        cases err with
        | some e => simp [hv] at hr; exact hr.symm
        | none => simp [hv] at hr
  · intro idDoc res hr
    unfold app at hr
    rw [authMiddleware_eq] at hr
    by_cases hh : headerGet r "Authorization" = ""
    · simp [hh] at hr
    · simp only [if_neg hh] at hr
      cases hsp : (stringsSplit (headerGet r "Authorization") "Bearer")[1]? with
      | none => simp [hsp] at hr
      | some t =>
        simp only [hsp] at hr
        rcases hv : verifyGoogleIDToken M jwtSet myAudience (trimSpace t) with ⟨doc, err⟩
        cases err with
        | some e => simp [hv] at hr
        | none =>
          simp [hv] at hr
          exact ⟨hr.2.symm, t, rfl, by rw [hv, hr.1]⟩

end SyncGcsS3
